import Mathlib

/-!
Shallow embedding of the playback, navigation and seek logic of
`src/main.py` (class MusicPlayerWindow). Pure presentation glue
(stylesheets, icons, tree widget) is not modelled; the external
QMediaPlayer/QAudioOutput is modelled as an observed snapshot plus a
trace of commands issued to it. Python float expressions such as
`int((value / 1000) * duration)` are idealised as exact rational
arithmetic followed by truncation toward zero (the semantics of the
Python int() conversion on the exact value).
-/

namespace ExclusiveMelodica

/-- Commands the window issues to the external player
(QMediaPlayer / QAudioOutput). -/
inductive PlayerCmd where
  | setSource (path : String)
  | play
  | pause
  | stop
  | seek (ms : ℤ)
  | setVolume (gain : ℚ)
  deriving DecidableEq

/-- Modelled from the spec: the error taxonomy of section 7
(EmptyPlaylist, IndexOutOfRange, NoTrackSelected). The Python code
raises none of these; the type makes the spec claims about error
propagation statable. -/
inductive PlayerError where
  | EmptyPlaylist
  | IndexOutOfRange
  | NoTrackSelected
  deriving DecidableEq

/-- Observable snapshot of the external player, as read by the handlers:
`player.position()`, `player.duration()`, `player.source().isLocalFile()`
and `player.playbackState() == PlayingState`. -/
structure Player where
  position : ℤ
  duration : ℤ
  hasLocalSource : Bool
  playing : Bool
  deriving DecidableEq

/-- The mutable window state touched by the embedded handlers:
`self.current_playlist`, `self.current_index`, `self.is_seeking`, the seek
slider value, the two time labels, the selected list row, the playlist
title and the status-bar message. -/
structure AppState where
  playlist_title : String
  current_playlist : List String
  current_index : ℤ
  is_seeking : Bool
  seek_slider : ℤ
  time_label : String
  duration_label : String
  song_list_row : ℤ
  status_message : Option String
  deriving DecidableEq

/-- Two-digit zero padding, the `{m:02d}` format directive. -/
def pad2 (n : ℕ) : String :=
  if n < 10 then "0" ++ toString n else toString n

/-- Embeds `format_ms` (src/main.py lines 57-64): mm:ss for milliseconds,
"--:--" for negative input. -/
def format_ms (ms : ℤ) : String :=
  if ms < 0 then "--:--"
  else
    let s := ms.toNat / 1000
    pad2 (s / 60) ++ ":" ++ pad2 (s % 60)

/-- The Python expression int((num / den) * mul) evaluated on the exact
rational value: (num * mul) / den truncated toward zero, which is the
integer t-division Int.tdiv. -/
def pyint_scale (num den mul : ℤ) : ℤ := (num * mul).tdiv den

/-- QSlider.setValue on the seek slider clamps to its range [0, 1000]
(the range set at line 201). -/
def seekSliderSet (v : ℤ) : ℤ := max 0 (min 1000 v)

/-- Derives a display name from a path, as `Path(file_path).name`. -/
def baseName (p : String) : String := ((p.splitOn "/").getLast?).getD p

/-- Embeds `on_position_changed` (lines 441-448): ignored while a drag is
in progress; otherwise updates the slider (when the duration is positive)
and the time label. -/
def on_position_changed (s : AppState) (pl : Player) (pos : ℤ) : AppState :=
  if s.is_seeking then s
  else
    let s1 := if 0 < pl.duration
      then { s with seek_slider :=
              seekSliderSet (pyint_scale pos pl.duration 1000) }
      else s
    { s1 with time_label := format_ms pos }

/-- Embeds `on_duration_changed` (lines 450-451). -/
def on_duration_changed (s : AppState) (duration : ℤ) : AppState :=
  { s with duration_label := format_ms duration }

/-- Embeds `on_seek_slider_moved` (lines 453-458): while the user drags,
show the tentative time derived from the slider value. -/
def on_seek_slider_moved (s : AppState) (pl : Player) (value : ℤ) : AppState :=
  if 0 < pl.duration
  then { s with time_label :=
          format_ms (pyint_scale value 1000 pl.duration) }
  else s

/-- Embeds `_seeker_pressed` (lines 460-461). -/
def seeker_pressed (s : AppState) : AppState := { s with is_seeking := true }

/-- A user drag step: the QSlider widget moves its own value (clamped to
its range), then emits sliderMoved, handled by `on_seek_slider_moved`. -/
def drag_move (s : AppState) (pl : Player) (value : ℤ) : AppState :=
  on_seek_slider_moved { s with seek_slider := seekSliderSet value } pl value

/-- Embeds `_seeker_released` (lines 463-470): when the duration is
positive, issue one setPosition (seek) command with the truncated target;
in every case clear the drag flag. -/
def seeker_released (s : AppState) (pl : Player) : AppState × List PlayerCmd :=
  let cmds := if 0 < pl.duration
    then [PlayerCmd.seek (pyint_scale s.seek_slider 1000 pl.duration)]
    else []
  ({ s with is_seeking := false }, cmds)

/-- Embeds `_periodic_update` (lines 472-480): the 500 ms ui_timer handler;
a no-op while a drag is in progress, otherwise re-derives slider and labels
from the player getters. -/
def periodic_update (s : AppState) (pl : Player) : AppState :=
  if s.is_seeking then s
  else
    let s1 := if 0 < pl.duration
      then { s with seek_slider :=
              seekSliderSet (pyint_scale pl.position pl.duration 1000) }
      else s
    { s1 with time_label := format_ms pl.position,
              duration_label := format_ms pl.duration }

/-- Embeds `play_at_index` (lines 375-385). The Python function raises no
exception; the Except result type makes the spec error taxonomy statable,
and the embedding returns .ok on every path, mirroring the silent early
return at line 376-377 for an out-of-range index. -/
def play_at_index (s : AppState) (idx : ℤ) :
    Except PlayerError (AppState × List PlayerCmd) :=
  if idx < 0 ∨ (s.current_playlist.length : ℤ) ≤ idx then .ok (s, [])
  else
    let path := s.current_playlist.getD idx.toNat ""
    .ok ({ s with current_index := idx,
                  song_list_row := idx,
                  status_message := some ("Playing: " ++ baseName path) },
         [PlayerCmd.setSource path, PlayerCmd.play])

/-- Embeds `play_pause` (lines 387-400). -/
def play_pause (s : AppState) (pl : Player) :
    Except PlayerError (AppState × List PlayerCmd) :=
  if pl.playing then .ok (s, [PlayerCmd.pause])
  else
    if !pl.hasLocalSource then
      if s.current_playlist ≠ [] then
        play_at_index s (if 0 ≤ s.current_index then s.current_index else 0)
      else
        .ok ({ s with status_message := some "No track selected." }, [])
    else
      .ok (s, [PlayerCmd.play])

/-- Embeds `stop` (lines 402-403): issues stop to the player and touches
no window state. -/
def stop (s : AppState) : AppState × List PlayerCmd := (s, [PlayerCmd.stop])

/-- Index computation of `prev_track` (lines 405-414) on a non-empty
playlist: step back one, and below zero either wrap (repeat on) or clamp
to 0. -/
def prev_index (len : ℕ) (current : ℤ) (repeatOn : Bool) : ℤ :=
  let raw := current - 1
  if raw < 0 then (if repeatOn then (len : ℤ) - 1 else 0) else raw

/-- Embeds `prev_track` (lines 405-414). -/
def prev_track (s : AppState) (repeatOn : Bool) :
    Except PlayerError (AppState × List PlayerCmd) :=
  if s.current_playlist = [] then .ok (s, [])
  else play_at_index s (prev_index s.current_playlist.length s.current_index repeatOn)

/-- Index computation of `next_track` (lines 416-429) on a non-empty
playlist. `r` is the value returned by `random.randrange(len)` when
shuffle is on; the library guarantees `r < len`, which the theorems take
as a hypothesis. -/
def next_index (len : ℕ) (current : ℤ) (shuffleOn repeatOn : Bool) (r : ℕ) : ℤ :=
  if shuffleOn then (r : ℤ)
  else
    let raw := current + 1
    if (len : ℤ) ≤ raw then (if repeatOn then 0 else (len : ℤ) - 1) else raw

/-- Embeds `next_track` (lines 416-429). -/
def next_track (s : AppState) (shuffleOn repeatOn : Bool) (r : ℕ) :
    Except PlayerError (AppState × List PlayerCmd) :=
  if s.current_playlist = [] then .ok (s, [])
  else play_at_index s
    (next_index s.current_playlist.length s.current_index shuffleOn repeatOn r)

/-- Embeds `on_volume_changed` (lines 437-438): forwards value/100.0 to
`audio_out.setVolume` with no clamping of its own. -/
def on_volume_changed (value : ℤ) : List PlayerCmd :=
  [PlayerCmd.setVolume ((value : ℚ) / 100)]

/-- Embeds `load_directory` (lines 332-361). `files` is the sorted,
extension-filtered listing produced by the loop at lines 335-338; the
filesystem traversal itself is the directory collaborator of spec
section 6. No player command is issued on any path. -/
def load_directory (s : AppState) (title : String) (files : List String) :
    AppState × List PlayerCmd :=
  if files = [] then
    ({ s with playlist_title := title,
              current_playlist := [],
              current_index := -1,
              status_message := some "No audio files found in the folder." }, [])
  else
    ({ s with playlist_title := title,
              current_playlist := files,
              current_index := 0,
              song_list_row := 0,
              status_message :=
                some ("Loaded " ++ toString files.length ++ " tracks.") }, [])

/-- Engine and timer events that can arrive between drag start and drag
release: positionChanged notifications (line 237) and ui_timer ticks
(line 250). Each event carries the player snapshot its handler reads. -/
inductive UiEvent where
  | posChanged (pl : Player) (pos : ℤ)
  | timerTick (pl : Player)

/-- Dispatch one inbound event to its handler. -/
def handle_event (s : AppState) : UiEvent → AppState
  | .posChanged pl pos => on_position_changed s pl pos
  | .timerTick pl => periodic_update s pl

/-- Run a sequence of inbound events. -/
def run_events (s : AppState) (evs : List UiEvent) : AppState :=
  evs.foldl handle_event s

/-- A concrete window state used by witnesses and counterexamples. -/
def sampleState : AppState :=
  { playlist_title := "T",
    current_playlist := ["a.mp3"],
    current_index := 0,
    is_seeking := false,
    seek_slider := 0,
    time_label := "00:00",
    duration_label := "00:00",
    song_list_row := 0,
    status_message := none }

/-- While the drag flag is set, a single inbound event leaves the state
untouched. -/
theorem handle_event_of_seeking (s : AppState) (e : UiEvent)
    (h : s.is_seeking = true) : handle_event s e = s := by
  cases e <;> simp [handle_event, on_position_changed, periodic_update, h]

/-- While the drag flag is set, any sequence of inbound events leaves the
state untouched. -/
theorem run_events_of_seeking (s : AppState) (evs : List UiEvent)
    (h : s.is_seeking = true) : run_events s evs = s := by
  induction evs with
  | nil => rfl
  | cons e t ih =>
      have he : handle_event s e = s := handle_event_of_seeking s e h
      simpa [run_events, he] using ih

/-- C1: after a drag starts, every sequence of engine positionChanged
notifications and periodic ui_timer ticks leaves the displayed time, the
seek slider value, and the drag flag unchanged, until the drag is
released. -/
theorem drag_blocks_position_updates (s : AppState) (evs : List UiEvent) :
    (run_events (seeker_pressed s) evs).time_label = (seeker_pressed s).time_label ∧
    (run_events (seeker_pressed s) evs).seek_slider = (seeker_pressed s).seek_slider ∧
    (run_events (seeker_pressed s) evs).is_seeking = true := by
  have h : run_events (seeker_pressed s) evs = seeker_pressed s :=
    run_events_of_seeking _ _ rfl
  exact ⟨by rw [h], by rw [h], by rw [h]; rfl⟩

/-- C3: with repeat and shuffle off, forward and backward navigation from
any valid index stays within [0, len-1]; Next clamps at the last index and
Previous clamps at 0. -/
theorem nav_no_repeat_clamps (len : ℕ) (current : ℤ)
    (hlen : 0 < len) (h0 : 0 ≤ current) (h1 : current < (len : ℤ)) :
    (0 ≤ next_index len current false false 0 ∧
      next_index len current false false 0 < (len : ℤ)) ∧
    (0 ≤ prev_index len current false ∧
      prev_index len current false < (len : ℤ)) ∧
    next_index len ((len : ℤ) - 1) false false 0 = (len : ℤ) - 1 ∧
    prev_index len 0 false = 0 := by
  simp only [next_index, prev_index, Bool.false_eq_true, if_false]
  split_ifs <;> omega

/-- Witness for C3 at len = 3, current = 1. -/
theorem nav_no_repeat_clamps_witness :
    ((0 < 3) ∧ ((0 : ℤ) ≤ 1) ∧ ((1 : ℤ) < ((3 : ℕ) : ℤ))) ∧
    ((0 ≤ next_index 3 1 false false 0 ∧
        next_index 3 1 false false 0 < ((3 : ℕ) : ℤ)) ∧
      (0 ≤ prev_index 3 1 false ∧
        prev_index 3 1 false < ((3 : ℕ) : ℤ)) ∧
      next_index 3 (((3 : ℕ) : ℤ) - 1) false false 0 = ((3 : ℕ) : ℤ) - 1 ∧
      prev_index 3 0 false = 0) :=
  ⟨⟨by decide, by decide, by decide⟩,
    nav_no_repeat_clamps 3 1 (by decide) (by decide) (by decide)⟩

/-- C4: with repeat on (shuffle off), navigation wraps at the boundaries:
Next from the last index yields 0 and Previous from 0 yields len-1. -/
theorem nav_repeat_wraps (len : ℕ) (hlen : 0 < len) :
    next_index len ((len : ℤ) - 1) false true 0 = 0 ∧
    prev_index len 0 true = (len : ℤ) - 1 := by
  simp only [next_index, prev_index, Bool.false_eq_true, if_false]
  split_ifs <;> omega

/-- Witness for C4 at len = 2. -/
theorem nav_repeat_wraps_witness :
    (0 < 2) ∧
    (next_index 2 (((2 : ℕ) : ℤ) - 1) false true 0 = 0 ∧
      prev_index 2 0 true = ((2 : ℕ) : ℤ) - 1) :=
  ⟨by decide, nav_repeat_wraps 2 (by decide)⟩

/-- C5: with shuffle on, the navigation result equals the random draw
itself: since randrange(len) yields a uniform value below len, the result
is uniform over [0, len-1] (for any len > 0, including len = 1) and may
equal the current index. -/
theorem shuffle_in_range (len : ℕ) (current : ℤ) (repeatOn : Bool) (r : ℕ)
    (hlen : 0 < len) (hr : r < len) :
    next_index len current true repeatOn r = (r : ℤ) ∧
    0 ≤ next_index len current true repeatOn r ∧
    next_index len current true repeatOn r < (len : ℤ) := by
  have h : next_index len current true repeatOn r = (r : ℤ) := by
    simp [next_index]
  refine ⟨h, ?_, ?_⟩ <;> rw [h] <;> omega

/-- Witness for C5 at len = 1, r = 0: the single-track playlist case. -/
theorem shuffle_in_range_witness :
    ((0 < 1) ∧ (0 < 1)) ∧
    (next_index 1 0 true false 0 = ((0 : ℕ) : ℤ) ∧
      0 ≤ next_index 1 0 true false 0 ∧
      next_index 1 0 true false 0 < ((1 : ℕ) : ℤ)) :=
  ⟨⟨by decide, by decide⟩, shuffle_in_range 1 0 false 0 (by decide) (by decide)⟩

/-- A concrete player snapshot with duration 3 ms, used by the C2
counterexample. -/
def threePlayer : Player :=
  { position := 0, duration := 3, hasLocalSource := true, playing := true }

/-- A concrete player snapshot with duration 4 ms, used by the C2
witness. -/
def fourPlayer : Player :=
  { position := 0, duration := 4, hasLocalSource := true, playing := true }

/-- C2 fails as stated: releasing the slider at value 500 (fraction 1/2)
with duration 3 ms issues a seek command with target 1 (the Python int()
truncation of 1.5), whereas round(f*D) = round(3/2) = 2. -/
theorem seeker_released_truncates :
    (seeker_released { sampleState with is_seeking := true, seek_slider := 500 }
        threePlayer).2 = [PlayerCmd.seek 1] ∧
    round ((500 : ℚ) / 1000 * 3) = 2 := by
  constructor
  · decide
  · norm_num [round_eq]

/-- C2 (amended): a drag-start, a drag-move to slider value v (fraction
v/1000), and a drag-release with the player reporting duration D produce,
when D > 0, exactly one seek command with target trunc(v/1000 * D)
(truncation, not rounding); when D ≤ 0 no seek command at all; and in both
cases the drag flag is cleared (back to Idle). -/
theorem seeker_release_behavior (s : AppState) (pl : Player) (v : ℤ)
    (hv0 : 0 ≤ v) (hv1 : v ≤ 1000) :
    (0 < pl.duration →
      (seeker_released (drag_move (seeker_pressed s) pl v) pl).2 =
        [PlayerCmd.seek (pyint_scale v 1000 pl.duration)]) ∧
    (pl.duration ≤ 0 →
      (seeker_released (drag_move (seeker_pressed s) pl v) pl).2 = []) ∧
    (seeker_released (drag_move (seeker_pressed s) pl v) pl).1.is_seeking = false := by
  have hset : seekSliderSet v = v := by
    simp only [seekSliderSet]
    omega
  refine ⟨?_, ?_, ?_⟩
  · intro hd
    simp [seeker_released, drag_move, on_seek_slider_moved, seeker_pressed, hset, hd]
  · intro hd
    have hd2 : ¬ (0 < pl.duration) := by omega
    simp [seeker_released, drag_move, on_seek_slider_moved, seeker_pressed, hd2]
  · by_cases hd : 0 < pl.duration <;>
      simp [seeker_released, drag_move, on_seek_slider_moved, seeker_pressed, hd]

/-- Witness for C2 (amended): slider value 500 with duration 4 ms yields
the single seek command with target 2 and clears the drag flag. -/
theorem seeker_release_behavior_witness :
    (((0 : ℤ) ≤ 500) ∧ ((500 : ℤ) ≤ 1000) ∧ (0 < fourPlayer.duration)) ∧
    (seeker_released (drag_move (seeker_pressed sampleState) fourPlayer 500)
        fourPlayer).2 =
      [PlayerCmd.seek (pyint_scale 500 1000 fourPlayer.duration)] ∧
    (seeker_released (drag_move (seeker_pressed sampleState) fourPlayer 500)
        fourPlayer).1.is_seeking = false :=
  ⟨⟨by decide, by decide, by decide⟩,
    (seeker_release_behavior sampleState fourPlayer 500 (by decide) (by decide)).1
      (by decide),
    (seeker_release_behavior sampleState fourPlayer 500 (by decide) (by decide)).2.2⟩

/-- C6 fails as stated: play_at_index with out-of-range index 5 on a
one-track playlist returns normally with no command and no error; the
guard at lines 376-377 silently ignores the call instead of propagating
IndexOutOfRange. -/
theorem play_at_index_silent_out_of_range :
    play_at_index sampleState 5 = .ok (sampleState, []) ∧
    play_at_index sampleState 5 ≠ .error PlayerError.IndexOutOfRange := by
  refine ⟨rfl, ?_⟩
  intro h
  have h1 : play_at_index sampleState 5 =
      Except.ok (sampleState, ([] : List PlayerCmd)) := rfl
  rw [h1] at h
  cases h

/-- C6 (amended): an out-of-range index is silently ignored: play_at_index
returns successfully, issues no player command, and leaves the whole state
(in particular current_index) unchanged. -/
theorem play_at_index_out_of_range_noop (s : AppState) (idx : ℤ)
    (h : idx < 0 ∨ (s.current_playlist.length : ℤ) ≤ idx) :
    play_at_index s idx = .ok (s, []) := by
  simp only [play_at_index, if_pos h]

/-- Witness for C6 (amended) at index 99 on the one-track sample state. -/
theorem play_at_index_out_of_range_noop_witness :
    ((99 : ℤ) < 0 ∨ ((sampleState.current_playlist.length : ℕ) : ℤ) ≤ 99) ∧
    play_at_index sampleState 99 = .ok (sampleState, []) :=
  ⟨by decide, play_at_index_out_of_range_noop sampleState 99 (by decide)⟩

/-- C7 fails as stated: on_volume_changed 150 forwards gain 150/100 = 3/2
to the audio output, not a clamped 1. -/
theorem on_volume_changed_no_clamp :
    on_volume_changed 150 = [PlayerCmd.setVolume (3 / 2)] ∧
    ((3 : ℚ) / 2) ≠ 1 := by
  constructor
  · simp only [on_volume_changed]
    norm_num
  · norm_num

/-- C7 (amended): the handler forwards value/100 with no clamping of its
own; for inputs within the volume slider range [0, 100] the forwarded
gain lies in [0, 1]. -/
theorem on_volume_changed_gain (v : ℤ) (h0 : 0 ≤ v) (h1 : v ≤ 100) :
    on_volume_changed v = [PlayerCmd.setVolume ((v : ℚ) / 100)] ∧
    0 ≤ (v : ℚ) / 100 ∧ (v : ℚ) / 100 ≤ 1 := by
  refine ⟨rfl, ?_, ?_⟩
  · apply div_nonneg
    · exact_mod_cast h0
    · norm_num
  · rw [div_le_one (by norm_num)]
    exact_mod_cast h1

/-- Witness for C7 (amended) at the default slider value 70. -/
theorem on_volume_changed_gain_witness :
    (((0 : ℤ) ≤ 70) ∧ ((70 : ℤ) ≤ 100)) ∧
    (on_volume_changed 70 = [PlayerCmd.setVolume (((70 : ℤ) : ℚ) / 100)] ∧
      0 ≤ ((70 : ℤ) : ℚ) / 100 ∧ ((70 : ℤ) : ℚ) / 100 ≤ 1) :=
  ⟨⟨by decide, by decide⟩, on_volume_changed_gain 70 (by decide) (by decide)⟩

/-- The empty-playlist sample state used by the C8 witness. -/
def emptyState : AppState :=
  { sampleState with current_playlist := [], current_index := -1 }

/-- The idle player snapshot (nothing loaded, nothing playing) used by the
C8 witness. -/
def idlePlayer : Player :=
  { position := 0, duration := 0, hasLocalSource := false, playing := false }

/-- C8: toggling play/pause while nothing is playing, no local source is
loaded and the playlist is empty only posts the "No track selected."
status message: no player command is issued and every other state field is
unchanged. -/
theorem play_pause_empty_reports (s : AppState) (pl : Player)
    (hp : pl.playing = false) (hs : pl.hasLocalSource = false)
    (he : s.current_playlist = []) :
    play_pause s pl =
      .ok ({ s with status_message := some "No track selected." }, []) := by
  simp [play_pause, hp, hs, he]

/-- Witness for C8 on the empty sample state and the idle player. -/
theorem play_pause_empty_reports_witness :
    (idlePlayer.playing = false ∧ idlePlayer.hasLocalSource = false ∧
      emptyState.current_playlist = []) ∧
    play_pause emptyState idlePlayer =
      .ok ({ emptyState with status_message := some "No track selected." }, []) :=
  ⟨⟨rfl, rfl, rfl⟩, play_pause_empty_reports emptyState idlePlayer rfl rfl rfl⟩

/-- C9 fails as stated: stop does not reset the drag flag; from a state
with is_seeking = true, stop leaves it true (lines 402-403 only forward
stop to the player). -/
theorem stop_keeps_drag_flag :
    (stop { sampleState with is_seeking := true }).1.is_seeking = true := rfl

/-- C9 (amended): every drag release resets the drag flag to false, and
stop issues the stop command but leaves the drag flag (indeed all window
state) unchanged rather than resetting it. -/
theorem drag_flag_reset (s : AppState) (pl : Player) :
    (seeker_released s pl).1.is_seeking = false ∧
    (stop s).1 = s ∧
    (stop s).2 = [PlayerCmd.stop] :=
  ⟨rfl, rfl, rfl⟩

/-- C10: loading a directory issues no player command whatsoever — in
particular no stop or pause, so a playing track keeps playing with its
loaded source untouched — and an empty filtered listing resets
current_index to -1. -/
theorem load_directory_no_player_commands (s : AppState) (title : String)
    (files : List String) :
    (load_directory s title files).2 = [] ∧
    (files = [] → (load_directory s title files).1.current_index = -1) := by
  constructor
  · unfold load_directory
    split <;> rfl
  · intro h
    simp [load_directory, h]

/-- Witness for C10 on an empty listing. -/
theorem load_directory_no_player_commands_witness :
    (load_directory sampleState "d" []).2 = [] ∧
    (load_directory sampleState "d" []).1.current_index = -1 :=
  ⟨(load_directory_no_player_commands sampleState "d" []).1,
    (load_directory_no_player_commands sampleState "d" []).2 rfl⟩

end ExclusiveMelodica
